import Mathlib

/-
Verification of the device-orchestration core of the stimwalker backend
(namespace STIMWALKER_NAMESPACE::devices).  The repository ships the header
files Devices/Devices.h, Devices/Generic/DataCollector.h and
Devices/Generic/AsyncDataCollector.h; the corresponding implementation files
are not part of the source tree, so the bodies of the operations below are
modelled from the specification (and the header doc comments), as indicated
on each definition.

The model is a shallow embedding: a DataCollector is a record of its members
declared in DataCollector.h, a TimeSeries is an append-only list of data
points with a recording-start reference timestamp, and Devices holds the two
id-keyed association lists m_Devices and m_DataCollectors.  Device-specific
virtual hooks (handleStartDataStreaming, handleStopDataStreaming) are
modelled by passing their boolean outcome as an argument.  Notifications of
the onNewData event are modelled as the list of fired payloads returned by
an operation.
-/

namespace Stimwalker

/-- Payload of a single sample.  The time-series container treats data points
as opaque values, so we model them as bare natural-number tags. -/
abbrev DataPoint := Nat

/-- Modelled from the spec: the TimeSeries external collaborator
(Data/TimeSeries.h is not in src/) is an append-only ordered sequence of
data points together with a recording-start reference timestamp. -/
structure TimeSeries where
  startingTime : Nat
  points : List DataPoint

/-- Reset the series: drop every stored point. -/
def TimeSeries.reset (ts : TimeSeries) : TimeSeries :=
  { ts with points := [] }

/-- Append one data point at the end of the series. -/
def TimeSeries.add (ts : TimeSeries) (p : DataPoint) : TimeSeries :=
  { ts with points := ts.points ++ [p] }

/-- Number of stored points. -/
def TimeSeries.size (ts : TimeSeries) : Nat :=
  ts.points.length

/-- State of a DataCollector, with the members declared in
Devices/Generic/DataCollector.h (m_DataChannelCount, m_IsStreamingData,
m_IsRecording, m_HasFailedToStartDataStreaming, m_LiveTimeSeries,
m_TrialTimeSeries). -/
structure DataCollector where
  dataChannelCount : Nat
  isStreamingData : Bool
  isRecording : Bool
  hasFailedToStartDataStreaming : Bool
  liveTimeSeries : TimeSeries
  trialTimeSeries : TimeSeries

/-- Modelled from the spec: a freshly constructed DataCollector (the
constructor body in DataCollector.cpp is not in src/).  The channel count is
fixed at construction; the collector is neither streaming nor recording, the
sticky failure flag is clear, and both series are empty. -/
def DataCollector.init (channelCount : Nat) : DataCollector :=
  { dataChannelCount := channelCount
    isStreamingData := false
    isRecording := false
    hasFailedToStartDataStreaming := false
    liveTimeSeries := { startingTime := 0, points := [] }
    trialTimeSeries := { startingTime := 0, points := [] } }

/-- Modelled from the spec: the body of DataCollector::startDataStreaming
(DataCollector.cpp is not in src/).  If already streaming this is a no-op
success; otherwise it clears the sticky failure flag, resets the live
series, and invokes the device-specific handleStartDataStreaming hook, whose
outcome is the hookResult argument: on success it sets isStreamingData, on
failure it sets the sticky flag, leaves isStreamingData false and reports
false. -/
def DataCollector.startDataStreaming (c : DataCollector) (hookResult : Bool) :
    Bool × DataCollector :=
  if c.isStreamingData then
    (true, c)
  else
    let c1 := { c with hasFailedToStartDataStreaming := false,
                       liveTimeSeries := c.liveTimeSeries.reset }
    if hookResult then
      (true, { c1 with isStreamingData := true })
    else
      (false, { c1 with hasFailedToStartDataStreaming := true })

/-- Modelled from the spec: the body of DataCollector::stopDataStreaming
(DataCollector.cpp is not in src/).  It invokes the device-specific
handleStopDataStreaming hook, whose outcome is the hookResult argument; on
success it clears isStreamingData and cascades to stop recording (recording
cannot outlive streaming); it returns the success flag. -/
def DataCollector.stopDataStreaming (c : DataCollector) (hookResult : Bool) :
    Bool × DataCollector :=
  if hookResult then
    (true, { c with isStreamingData := false, isRecording := false })
  else
    (false, c)

/-- Modelled from the spec: the body of DataCollector::startRecording
(DataCollector.cpp is not in src/).  Recording requires streaming to be
active: if not streaming the collector first starts streaming, and fails if
that start fails.  Once streaming is active it resets the trial series and
sets isRecording. -/
def DataCollector.startRecording (c : DataCollector) (hookResult : Bool) :
    Bool × DataCollector :=
  let r := if c.isStreamingData then (true, c) else c.startDataStreaming hookResult
  if r.1 then
    (true, { r.2 with trialTimeSeries := r.2.trialTimeSeries.reset,
                      isRecording := true })
  else
    (false, r.2)

/-- Modelled from the spec: the body of DataCollector::stopRecording
(DataCollector.cpp is not in src/).  It clears isRecording; the trial series
is retained for later retrieval. -/
def DataCollector.stopRecording (c : DataCollector) : Bool × DataCollector :=
  (true, { c with isRecording := false })

/-- Modelled from the spec: the body of DataCollector::addDataPoint
(DataCollector.cpp is not in src/).  It appends the point to the live series
when streaming, additionally appends it to the trial series when recording,
and fires the onNewData notification exactly once per call with the latest
point.  The fired notifications are returned alongside the new state. -/
def DataCollector.addDataPoint (c : DataCollector) (p : DataPoint) :
    DataCollector × List DataPoint :=
  let c1 := if c.isStreamingData then
      { c with liveTimeSeries := c.liveTimeSeries.add p } else c
  let c2 := if c1.isRecording then
      { c1 with trialTimeSeries := c1.trialTimeSeries.add p } else c1
  (c2, [p])

/-- Modelled from the spec: the body of DataCollector::addDataPoints
(DataCollector.cpp is not in src/).  It performs the batch append to the
live series when streaming and to the trial series when recording, and fires
the onNewData notification only once at the end, with the last data point of
the vector. -/
def DataCollector.addDataPoints (c : DataCollector) (ps : List DataPoint) :
    DataCollector × List DataPoint :=
  let c1 := if c.isStreamingData then
      { c with liveTimeSeries :=
          { c.liveTimeSeries with points := c.liveTimeSeries.points ++ ps } }
    else c
  let c2 := if c1.isRecording then
      { c1 with trialTimeSeries :=
          { c1.trialTimeSeries with points := c1.trialTimeSeries.points ++ ps } }
    else c1
  (c2, ps.getLast?.toList)

/-- Modelled from the spec: applying the common recording-start reference
timestamp to a collector's trial series (done by Devices::startRecording,
whose body in Devices.cpp is not in src/). -/
def DataCollector.setTrialStartingTime (c : DataCollector) (t : Nat) :
    DataCollector :=
  { c with trialTimeSeries := { c.trialTimeSeries with startingTime := t } }

/-- One operation of the DataCollector interface, with the outcome of the
device-specific hook (and, for the orchestrator timestamp, the applied
instant) baked into the operation. -/
inductive Op where
  | startStream (hookResult : Bool)
  | stopStream (hookResult : Bool)
  | startRec (hookResult : Bool)
  | stopRec
  | addPoint (p : DataPoint)
  | addPoints (ps : List DataPoint)
  | setStartTime (t : Nat)

/-- State transition of a DataCollector under one operation, discarding the
returned success flag and notifications. -/
def applyOp (c : DataCollector) (o : Op) : DataCollector :=
  match o with
  | .startStream h => (c.startDataStreaming h).2
  | .stopStream h => (c.stopDataStreaming h).2
  | .startRec h => (c.startRecording h).2
  | .stopRec => c.stopRecording.2
  | .addPoint p => (c.addDataPoint p).1
  | .addPoints ps => (c.addDataPoints ps).1
  | .setStartTime t => c.setTrialStartingTime t

/-- Whether an operation performs a fresh data-streaming start attempt
(startDataStreaming directly, or startRecording which may start streaming
first). -/
def Op.isStartAttempt : Op → Bool
  | .startStream _ => true
  | .startRec _ => true
  | _ => false

/-- A DataCollector state reachable from a freshly constructed collector by
some sequence of interface operations. -/
def Reachable (c : DataCollector) : Prop :=
  ∃ (n : Nat) (ops : List Op), c = ops.foldl applyOp (DataCollector.init n)

/-- The streaming/recording invariant of the DataCollector state machine:
recording may be true only while streaming is true. -/
def Invariant (c : DataCollector) : Prop :=
  c.isRecording = true → c.isStreamingData = true

/-- Modelled from the spec: the Device external collaborator capability
surface (Devices/Generic/Device.h is not in src/): connect returning a
success flag, a connection state, and a way to obtain its DataCollector.
The connectSucceeds field encodes the outcome this device produces when a
connection is attempted. -/
structure Device where
  connectSucceeds : Bool
  isConnected : Bool
  dataCollector : DataCollector

/-- Modelled from the spec: Device::connect attempts the connection and
returns whether it succeeded; the device's connection state records the
outcome of its own attempt. -/
def Device.connect (d : Device) : Bool × Device :=
  (d.connectSucceeds, { d with isConnected := d.connectSucceeds })

/-- Lookup of the entry bound to an id in an id-keyed association list
(a std::map keyed by int in Devices.h). -/
def lookupId {α : Type} : List (Nat × α) → Nat → Option α
  | [], _ => none
  | kv :: t, a => if kv.1 = a then some kv.2 else lookupId t a

/-- Erasure of every entry bound to an id in an id-keyed association list
(std::map::erase in Devices.cpp). -/
def eraseId {α : Type} : List (Nat × α) → Nat → List (Nat × α)
  | [], _ => []
  | kv :: t, a => if kv.1 = a then eraseId t a else kv :: eraseId t a

/-- State of the Devices orchestrator, with the members declared in
Devices/Devices.h: the id-keyed collections m_Devices and m_DataCollectors
and the aggregate flags m_IsConnected, m_IsRecording, m_IsPaused, plus the
next id to assign. -/
structure Devices where
  nextDeviceId : Nat
  devices : List (Nat × Device)
  dataCollectors : List (Nat × DataCollector)
  isConnected : Bool
  isRecording : Bool
  isPaused : Bool

/-- A freshly default-constructed Devices collection. -/
def Devices.empty : Devices :=
  { nextDeviceId := 0, devices := [], dataCollectors := [],
    isConnected := false, isRecording := false, isPaused := false }

/-- Number of devices in the collection (Devices::size). -/
def Devices.size (s : Devices) : Nat :=
  s.devices.length

/-- Modelled from the spec: the body of Devices::add (Devices.cpp is not in
src/).  It assigns the next unused integer id, retrieves the device's
DataCollector, inserts both into the two mappings together, and returns the
id. -/
def Devices.add (s : Devices) (d : Device) : Nat × Devices :=
  (s.nextDeviceId,
   { s with
     devices := s.devices ++ [(s.nextDeviceId, d)],
     dataCollectors := s.dataCollectors ++ [(s.nextDeviceId, d.dataCollector)],
     nextDeviceId := s.nextDeviceId + 1 })

/-- Modelled from the spec: the body of Devices::remove (Devices.cpp is not
in src/).  It erases the entries bound to the id from both mappings. -/
def Devices.remove (s : Devices) (deviceId : Nat) : Devices :=
  { s with
    devices := eraseId s.devices deviceId,
    dataCollectors := eraseId s.dataCollectors deviceId }

/-- Modelled from the spec: the body of Devices::clear (Devices.cpp is not
in src/; the header documents it as removing all the devices from the
collection, and the data model keeps the two mappings in lockstep). -/
def Devices.clear (s : Devices) : Devices :=
  { s with devices := [], dataCollectors := [] }

/-- Error taxonomy of the orchestrator lookups. -/
inductive DevicesError where
  | NotFound

/-- Modelled from the spec: the body of Devices::getDevice (Devices.cpp is
not in src/).  Lookup by id; fails with NotFound when the id is absent. -/
def Devices.getDevice (s : Devices) (deviceId : Nat) :
    Except DevicesError Device :=
  match lookupId s.devices deviceId with
  | some d => Except.ok d
  | none => Except.error DevicesError.NotFound

/-- Modelled from the spec: the body of Devices::getDataCollector
(Devices.cpp is not in src/).  Lookup by id; fails with NotFound when the id
is absent. -/
def Devices.getDataCollector (s : Devices) (deviceId : Nat) :
    Except DevicesError DataCollector :=
  match lookupId s.dataCollectors deviceId with
  | some c => Except.ok c
  | none => Except.error DevicesError.NotFound

/-- Modelled from the spec: the subscript operator of Devices (Devices.cpp
is not in src/), identical to getDevice. -/
def Devices.opIndex (s : Devices) (deviceId : Nat) :
    Except DevicesError Device :=
  s.getDevice deviceId

/-- Modelled from the spec: the body of Devices::connect (Devices.cpp is not
in src/).  Every managed device's connect is attempted, each one regardless
of the outcomes of its siblings; the aggregate result is true iff every
device succeeded, and isConnected is set to that aggregate. -/
def Devices.connect (s : Devices) : Bool × Devices :=
  let ok := s.devices.all (fun kv => kv.2.connect.1)
  (ok, { s with
         devices := s.devices.map (fun kv => (kv.1, kv.2.connect.2)),
         isConnected := ok })

/-- Modelled from the spec: the body of Devices::startRecording (Devices.cpp
is not in src/).  It starts recording on every managed collector (the
device-specific hook outcome for the collector with a given id is
hookResult id); after all collectors have reported, a single now timestamp
is captured and applied as the common recording-start reference to every
collector; the aggregate result is true iff every collector started, and
isRecording is set to that aggregate. -/
def Devices.startRecording (s : Devices) (now : Nat) (hookResult : Nat → Bool) :
    Bool × Devices :=
  let started := s.dataCollectors.map
    (fun kv => (kv.1, (kv.2.startRecording (hookResult kv.1)).2))
  let ok := s.dataCollectors.all
    (fun kv => (kv.2.startRecording (hookResult kv.1)).1)
  let stamped := started.map (fun kv => (kv.1, kv.2.setTrialStartingTime now))
  (ok, { s with dataCollectors := stamped, isRecording := ok })

/-- Well-formedness of the Devices collection: every assigned id is below
the next id to assign, the assigned ids are pairwise distinct, and the two
mappings are keyed in lockstep. -/
def Devices.Wf (s : Devices) : Prop :=
  (∀ kv ∈ s.devices, kv.1 < s.nextDeviceId) ∧
  (s.devices.map Prod.fst).Nodup ∧
  s.dataCollectors.map Prod.fst = s.devices.map Prod.fst

/-- A sample collector used to instantiate the theorems: streaming and
recording, with one point already in the live series. -/
def sampleCollector : DataCollector :=
  { dataChannelCount := 2
    isStreamingData := true
    isRecording := true
    hasFailedToStartDataStreaming := false
    liveTimeSeries := { startingTime := 0, points := [7] }
    trialTimeSeries := { startingTime := 0, points := [] } }

/-- A sample device whose connection attempts succeed. -/
def sampleDevice : Device :=
  { connectSucceeds := true, isConnected := false,
    dataCollector := DataCollector.init 2 }

/-- A sample device whose connection attempts fail. -/
def sampleDeviceBad : Device :=
  { connectSucceeds := false, isConnected := false,
    dataCollector := DataCollector.init 5 }

/-- A sample two-device collection used to instantiate the theorems. -/
def sampleDevices : Devices :=
  { nextDeviceId := 2
    devices := [(0, sampleDevice), (1, sampleDeviceBad)]
    dataCollectors := [(0, sampleDevice.dataCollector),
                       (1, sampleDeviceBad.dataCollector)]
    isConnected := false
    isRecording := false
    isPaused := false }

theorem lookupId_eq_none_iff {α : Type} (l : List (Nat × α)) (a : Nat) :
    lookupId l a = none ↔ ∀ kv ∈ l, kv.1 ≠ a := by
  induction l with
  | nil => simp [lookupId]
  | cons kv t ih =>
      by_cases hk : kv.1 = a
      · simp [lookupId, hk]
      · simp [lookupId, hk, ih]

theorem lookupId_append_of_none {α : Type} (l : List (Nat × α)) (a : Nat) (x : α)
    (h : lookupId l a = none) : lookupId (l ++ [(a, x)]) a = some x := by
  induction l with
  | nil => simp [lookupId]
  | cons kv t ih =>
      by_cases hk : kv.1 = a
      · simp [lookupId, hk] at h
      · simp only [List.cons_append, lookupId, hk, if_false, if_neg hk] at h ⊢
        exact ih h

theorem lookupId_eraseId {α : Type} (l : List (Nat × α)) (a : Nat) :
    lookupId (eraseId l a) a = none := by
  induction l with
  | nil => rfl
  | cons kv t ih =>
      by_cases hk : kv.1 = a
      · simp [eraseId, hk, ih]
      · simp [eraseId, lookupId, hk, ih]

theorem eraseId_eq_self {α : Type} (l : List (Nat × α)) (a : Nat)
    (h : ∀ kv ∈ l, kv.1 ≠ a) : eraseId l a = l := by
  induction l with
  | nil => rfl
  | cons kv t ih =>
      have hk := h kv (List.mem_cons_self kv t)
      simp only [eraseId, if_neg hk]
      rw [ih (fun x hx => h x (List.mem_cons_of_mem kv hx))]

theorem length_eraseId_of_mem {α : Type} (l : List (Nat × α)) (a : Nat)
    (hnd : (l.map Prod.fst).Nodup) (h : lookupId l a ≠ none) :
    (eraseId l a).length + 1 = l.length := by
  induction l with
  | nil => simp [lookupId] at h
  | cons kv t ih =>
      rw [List.map_cons, List.nodup_cons] at hnd
      by_cases hk : kv.1 = a
      · have hrest : ∀ x ∈ t, x.1 ≠ a := by
          intro x hx he
          have hmem : x.1 ∈ t.map Prod.fst := List.mem_map_of_mem Prod.fst hx
          rw [he, ← hk] at hmem
          exact hnd.1 hmem
        simp [eraseId, hk, eraseId_eq_self t a hrest]
      · have h' : lookupId t a ≠ none := by simpa [lookupId, hk] using h
        have hlen := ih hnd.2 h'
        simp only [eraseId, if_neg hk, List.length_cons]
        omega

theorem invariant_applyOp (c : DataCollector) (o : Op) (h : Invariant c) :
    Invariant (applyOp c o) := by
  unfold Invariant at h ⊢
  cases hs : c.isStreamingData <;> cases hr : c.isRecording
  case false.true => rw [hr, hs] at h; simp at h
  all_goals (
    cases o with
    | startStream hk =>
        cases hk <;>
          simp [applyOp, DataCollector.startDataStreaming, hs, hr]
    | stopStream hk =>
        cases hk <;>
          simp [applyOp, DataCollector.stopDataStreaming, hs, hr]
    | startRec hk =>
        cases hk <;>
          simp [applyOp, DataCollector.startRecording,
            DataCollector.startDataStreaming, hs, hr]
    | stopRec => simp [applyOp, DataCollector.stopRecording, hs, hr]
    | addPoint p => simp [applyOp, DataCollector.addDataPoint, hs, hr]
    | addPoints ps => simp [applyOp, DataCollector.addDataPoints, hs, hr]
    | setStartTime t =>
        simp [applyOp, DataCollector.setTrialStartingTime, hs, hr])

theorem invariant_foldl (ops : List Op) (c : DataCollector) (h : Invariant c) :
    Invariant (ops.foldl applyOp c) := by
  induction ops generalizing c with
  | nil => exact h
  | cons o t ih => exact ih _ (invariant_applyOp c o h)

theorem invariant_of_reachable (c : DataCollector) (h : Reachable c) :
    Invariant c := by
  obtain ⟨n, ops, rfl⟩ := h
  refine invariant_foldl ops _ ?_
  intro h0
  simp [DataCollector.init] at h0

/-- Claim C2: in every reachable state of a DataCollector, isRecording may be
true only while isStreamingData is true; this invariant is preserved by every
operation; and a successful stopDataStreaming clears isStreamingData and
forces isRecording to false as an observable side effect. -/
theorem DataCollector.recording_only_while_streaming (c : DataCollector)
    (h : Reachable c) :
    (c.isRecording = true → c.isStreamingData = true) ∧
    (∀ o : Op, (applyOp c o).isRecording = true →
      (applyOp c o).isStreamingData = true) ∧
    (∀ hookResult : Bool, (c.stopDataStreaming hookResult).1 = true →
      (c.stopDataStreaming hookResult).2.isStreamingData = false ∧
      (c.stopDataStreaming hookResult).2.isRecording = false) := by
  have hinv := invariant_of_reachable c h
  refine ⟨hinv, fun o => invariant_applyOp c o hinv, ?_⟩
  intro hookResult hok
  cases hookResult with
  | false => simp [DataCollector.stopDataStreaming] at hok
  | true => simp [DataCollector.stopDataStreaming]

/-- Instantiation of claim C2's theorem at a concrete reachable state. -/
theorem DataCollector.recording_only_while_streaming_witness :
    Reachable (DataCollector.init 4) ∧
    (((DataCollector.init 4).isRecording = true →
        (DataCollector.init 4).isStreamingData = true) ∧
     (∀ o : Op, (applyOp (DataCollector.init 4) o).isRecording = true →
        (applyOp (DataCollector.init 4) o).isStreamingData = true) ∧
     (∀ hookResult : Bool,
        ((DataCollector.init 4).stopDataStreaming hookResult).1 = true →
        ((DataCollector.init 4).stopDataStreaming hookResult).2.isStreamingData
            = false ∧
        ((DataCollector.init 4).stopDataStreaming hookResult).2.isRecording
            = false)) :=
  ⟨⟨4, [], rfl⟩,
   DataCollector.recording_only_while_streaming (DataCollector.init 4)
     ⟨4, [], rfl⟩⟩

/-- Claim C8: startDataStreaming on a collector that is already streaming is
a no-op success; otherwise it clears the sticky failure flag and resets the
live series, then on hook success sets isStreamingData, and on hook failure
sets the sticky flag, leaves isStreamingData false and returns false; every
operation that is not a fresh start attempt preserves the sticky flag. -/
theorem DataCollector.startDataStreaming_behaviour (c : DataCollector)
    (hookResult : Bool) :
    (c.isStreamingData = true → c.startDataStreaming hookResult = (true, c)) ∧
    (c.isStreamingData = false → hookResult = true →
      c.startDataStreaming hookResult =
        (true, { c with hasFailedToStartDataStreaming := false,
                        liveTimeSeries := c.liveTimeSeries.reset,
                        isStreamingData := true })) ∧
    (c.isStreamingData = false → hookResult = false →
      c.startDataStreaming hookResult =
        (false, { c with hasFailedToStartDataStreaming := true,
                         liveTimeSeries := c.liveTimeSeries.reset })) ∧
    (∀ o : Op, o.isStartAttempt = false →
      (applyOp c o).hasFailedToStartDataStreaming =
        c.hasFailedToStartDataStreaming) := by
  refine ⟨?_, ?_, ?_, ?_⟩
  · intro hs
    simp [DataCollector.startDataStreaming, hs]
  · intro hs hk
    simp [DataCollector.startDataStreaming, hs, hk]
  · intro hs hk
    simp [DataCollector.startDataStreaming, hs, hk]
  · intro o ho
    cases o with
    | startStream hk => simp [Op.isStartAttempt] at ho
    | startRec hk => simp [Op.isStartAttempt] at ho
    | stopStream hk =>
        cases hk <;> simp [applyOp, DataCollector.stopDataStreaming]
    | stopRec => simp [applyOp, DataCollector.stopRecording]
    | addPoint p =>
        cases hs : c.isStreamingData <;> cases hr : c.isRecording <;>
          simp [applyOp, DataCollector.addDataPoint, hs, hr]
    | addPoints ps =>
        cases hs : c.isStreamingData <;> cases hr : c.isRecording <;>
          simp [applyOp, DataCollector.addDataPoints, hs, hr]
    | setStartTime t => simp [applyOp, DataCollector.setTrialStartingTime]

/-- Instantiation of claim C8's theorem at a concrete collector. -/
theorem DataCollector.startDataStreaming_behaviour_witness :
    ((DataCollector.init 3).isStreamingData = true →
      (DataCollector.init 3).startDataStreaming false =
        (true, DataCollector.init 3)) ∧
    ((DataCollector.init 3).isStreamingData = false → false = true →
      (DataCollector.init 3).startDataStreaming false =
        (true, { DataCollector.init 3 with
                   hasFailedToStartDataStreaming := false,
                   liveTimeSeries := (DataCollector.init 3).liveTimeSeries.reset,
                   isStreamingData := true })) ∧
    ((DataCollector.init 3).isStreamingData = false → false = false →
      (DataCollector.init 3).startDataStreaming false =
        (false, { DataCollector.init 3 with
                    hasFailedToStartDataStreaming := true,
                    liveTimeSeries :=
                      (DataCollector.init 3).liveTimeSeries.reset })) ∧
    (∀ o : Op, o.isStartAttempt = false →
      (applyOp (DataCollector.init 3) o).hasFailedToStartDataStreaming =
        (DataCollector.init 3).hasFailedToStartDataStreaming) :=
  DataCollector.startDataStreaming_behaviour (DataCollector.init 3) false

theorem addDataPoints_cons_state (c : DataCollector) (p : DataPoint)
    (t : List DataPoint) :
    ((c.addDataPoint p).1.addDataPoints t).1 = (c.addDataPoints (p :: t)).1 := by
  cases hs : c.isStreamingData <;> cases hr : c.isRecording <;>
    simp [DataCollector.addDataPoint, DataCollector.addDataPoints,
      TimeSeries.add, hs, hr]

theorem foldl_addDataPoint_state (ps : List DataPoint) (c : DataCollector) :
    ps.foldl (fun s p => (s.addDataPoint p).1) c = (c.addDataPoints ps).1 := by
  induction ps generalizing c with
  | nil =>
      obtain ⟨n, sB, rB, fB, ⟨lt, lp⟩, ⟨tt, tp⟩⟩ := c
      cases sB <;> cases rB <;> simp [DataCollector.addDataPoints]
  | cons p t ih =>
      rw [List.foldl_cons, ih ((c.addDataPoint p).1), addDataPoints_cons_state]

/-- Claim C3: for every non-empty vector of data points, addDataPoints leaves
the live and trial series in exactly the state that calling addDataPoint on
each element in sequence order would produce, but fires the onNewData
notification exactly once, carrying the last point. -/
theorem DataCollector.addDataPoints_refines_addDataPoint (c : DataCollector)
    (ps : List DataPoint) (h : ps ≠ []) :
    (c.addDataPoints ps).1 = ps.foldl (fun s p => (s.addDataPoint p).1) c ∧
    (c.addDataPoints ps).2 = [ps.getLast h] := by
  constructor
  · exact (foldl_addDataPoint_state ps c).symm
  · show ps.getLast?.toList = [ps.getLast h]
    rw [List.getLast?_eq_getLast_of_ne_nil h]
    rfl

/-- Instantiation of claim C3's theorem at a concrete collector and batch. -/
theorem DataCollector.addDataPoints_refines_addDataPoint_witness :
    ([1, 2, 3] : List DataPoint) ≠ [] ∧
    ((sampleCollector.addDataPoints [1, 2, 3]).1 =
      ([1, 2, 3] : List DataPoint).foldl (fun s p => (s.addDataPoint p).1)
        sampleCollector ∧
     (sampleCollector.addDataPoints [1, 2, 3]).2 = [3]) := by
  have h := DataCollector.addDataPoints_refines_addDataPoint sampleCollector
    [1, 2, 3] (by simp)
  exact ⟨by simp, h.1, h.2.trans (by rfl)⟩

/-- Claim C4: while streaming, addDataPoint appends the point to the live
series (its length grows by exactly one); if recording it also appends it to
the trial series (length grows by one), and if not recording the trial
series is unchanged; the onNewData notification fires exactly once per call
with the latest point. -/
theorem DataCollector.addDataPoint_behaviour (c : DataCollector) (p : DataPoint)
    (h : c.isStreamingData = true) :
    (c.addDataPoint p).1.liveTimeSeries.points =
      c.liveTimeSeries.points ++ [p] ∧
    (c.addDataPoint p).1.liveTimeSeries.points.length =
      c.liveTimeSeries.points.length + 1 ∧
    (c.isRecording = true →
      (c.addDataPoint p).1.trialTimeSeries.points =
        c.trialTimeSeries.points ++ [p] ∧
      (c.addDataPoint p).1.trialTimeSeries.points.length =
        c.trialTimeSeries.points.length + 1) ∧
    (c.isRecording = false →
      (c.addDataPoint p).1.trialTimeSeries = c.trialTimeSeries) ∧
    (c.addDataPoint p).2 = [p] := by
  cases hr : c.isRecording <;>
    simp [DataCollector.addDataPoint, TimeSeries.add, h, hr]

/-- Instantiation of claim C4's theorem at a concrete streaming and recording
collector. -/
theorem DataCollector.addDataPoint_behaviour_witness :
    sampleCollector.isStreamingData = true ∧
    ((sampleCollector.addDataPoint 9).1.liveTimeSeries.points =
      sampleCollector.liveTimeSeries.points ++ [9] ∧
     (sampleCollector.addDataPoint 9).1.liveTimeSeries.points.length =
      sampleCollector.liveTimeSeries.points.length + 1 ∧
     (sampleCollector.isRecording = true →
       (sampleCollector.addDataPoint 9).1.trialTimeSeries.points =
         sampleCollector.trialTimeSeries.points ++ [9] ∧
       (sampleCollector.addDataPoint 9).1.trialTimeSeries.points.length =
         sampleCollector.trialTimeSeries.points.length + 1) ∧
     (sampleCollector.isRecording = false →
       (sampleCollector.addDataPoint 9).1.trialTimeSeries =
         sampleCollector.trialTimeSeries) ∧
     (sampleCollector.addDataPoint 9).2 = [9]) :=
  ⟨rfl, DataCollector.addDataPoint_behaviour sampleCollector 9 rfl⟩

/-- Claim C1: startRecording resets the trial series to empty (independent of
the live series' contents, since the collector is arbitrary) and sets
isRecording whenever it succeeds, with streaming active afterwards; when the
collector was not streaming, its outcome is exactly that of first starting
the data streaming, and on failure the state is the failed-start state with
recording not set. -/
theorem DataCollector.startRecording_behaviour (c : DataCollector)
    (hookResult : Bool) :
    ((c.startRecording hookResult).1 = true →
      (c.startRecording hookResult).2.trialTimeSeries.points = [] ∧
      (c.startRecording hookResult).2.isRecording = true ∧
      (c.startRecording hookResult).2.isStreamingData = true) ∧
    (c.isStreamingData = false →
      (c.startRecording hookResult).1 = (c.startDataStreaming hookResult).1 ∧
      ((c.startRecording hookResult).1 = false →
        (c.startRecording hookResult).2 =
          (c.startDataStreaming hookResult).2)) := by
  cases hs : c.isStreamingData <;> cases hookResult <;>
    simp [DataCollector.startRecording, DataCollector.startDataStreaming,
      TimeSeries.reset, hs]

/-- Instantiation of claim C1's theorem at a concrete non-streaming collector
with a succeeding hook. -/
theorem DataCollector.startRecording_behaviour_witness :
    (((DataCollector.init 1).startRecording true).1 = true →
      ((DataCollector.init 1).startRecording true).2.trialTimeSeries.points
          = [] ∧
      ((DataCollector.init 1).startRecording true).2.isRecording = true ∧
      ((DataCollector.init 1).startRecording true).2.isStreamingData = true) ∧
    ((DataCollector.init 1).isStreamingData = false →
      ((DataCollector.init 1).startRecording true).1 =
        ((DataCollector.init 1).startDataStreaming true).1 ∧
      (((DataCollector.init 1).startRecording true).1 = false →
        ((DataCollector.init 1).startRecording true).2 =
          ((DataCollector.init 1).startDataStreaming true).2)) :=
  DataCollector.startRecording_behaviour (DataCollector.init 1) true

/-- Claim C5: Devices connect attempts every managed device's connect even
when an earlier device fails (each device's resulting connection state
records the outcome of its own attempt, regardless of its siblings), returns
true iff every managed device's connect returned true, and sets the
aggregate isConnected flag to that result. -/
theorem Devices.connect_behaviour (s : Devices) :
    (s.connect.1 = true ↔ ∀ kv ∈ s.devices, kv.2.connectSucceeds = true) ∧
    s.connect.2.isConnected = s.connect.1 ∧
    s.connect.2.devices = s.devices.map
      (fun kv => (kv.1, { kv.2 with isConnected := kv.2.connectSucceeds })) := by
  refine ⟨?_, rfl, rfl⟩
  simp [Devices.connect, Device.connect, List.all_eq_true]

/-- Instantiation of claim C5's theorem at a concrete collection with one
succeeding and one failing device. -/
theorem Devices.connect_behaviour_witness :
    (sampleDevices.connect.1 = true ↔
      ∀ kv ∈ sampleDevices.devices, kv.2.connectSucceeds = true) ∧
    sampleDevices.connect.2.isConnected = sampleDevices.connect.1 ∧
    sampleDevices.connect.2.devices = sampleDevices.devices.map
      (fun kv => (kv.1, { kv.2 with isConnected := kv.2.connectSucceeds })) :=
  Devices.connect_behaviour sampleDevices

/-- Claim C6: after a successful Devices startRecording, the aggregate
isRecording flag is set and every managed collector's trial series carries
the single captured now instant as its recording-start reference timestamp,
so all trial series share one identical start instant. -/
theorem Devices.startRecording_common_timestamp (s : Devices) (now : Nat)
    (hookResult : Nat → Bool)
    (h : (s.startRecording now hookResult).1 = true) :
    (s.startRecording now hookResult).2.isRecording = true ∧
    ∀ kv ∈ (s.startRecording now hookResult).2.dataCollectors,
      kv.2.trialTimeSeries.startingTime = now := by
  refine ⟨h, ?_⟩
  intro kv hkv
  simp only [Devices.startRecording, List.map_map, List.mem_map] at hkv
  obtain ⟨x, hx, rfl⟩ := hkv
  rfl

/-- Instantiation of claim C6's theorem at a concrete two-device collection
whose hooks both succeed. -/
theorem Devices.startRecording_common_timestamp_witness :
    (sampleDevices.startRecording 42 (fun _ => true)).1 = true ∧
    ((sampleDevices.startRecording 42 (fun _ => true)).2.isRecording = true ∧
     ∀ kv ∈ (sampleDevices.startRecording 42 (fun _ => true)).2.dataCollectors,
       kv.2.trialTimeSeries.startingTime = 42) :=
  ⟨rfl, Devices.startRecording_common_timestamp sampleDevices 42
    (fun _ => true) rfl⟩

/-- Claim C7: in a well-formed collection, add assigns an id absent from both
mappings (never reusing an id still referencing a live entry), inserts the
device and its data collector into the two mappings together, grows size by
exactly one and preserves well-formedness; remove of a present id leaves
that id absent from both mappings and shrinks size by exactly one. -/
theorem Devices.add_remove_behaviour (s : Devices) (d : Device) (hwf : s.Wf) :
    lookupId s.devices (s.add d).1 = none ∧
    lookupId s.dataCollectors (s.add d).1 = none ∧
    lookupId (s.add d).2.devices (s.add d).1 = some d ∧
    lookupId (s.add d).2.dataCollectors (s.add d).1 = some d.dataCollector ∧
    (s.add d).2.size = s.size + 1 ∧
    (s.add d).2.Wf ∧
    (∀ i, lookupId s.devices i ≠ none →
      lookupId (s.remove i).devices i = none ∧
      lookupId (s.remove i).dataCollectors i = none ∧
      (s.remove i).size + 1 = s.size) := by
  obtain ⟨hbound, hnodup, hkeys⟩ := hwf
  have hcolbound : ∀ kv ∈ s.dataCollectors, kv.1 < s.nextDeviceId := by
    intro kv hkv
    have hmem : kv.1 ∈ s.dataCollectors.map Prod.fst :=
      List.mem_map_of_mem Prod.fst hkv
    rw [hkeys] at hmem
    obtain ⟨kv0, hkv0, he⟩ := List.mem_map.mp hmem
    exact he ▸ hbound kv0 hkv0
  have hdevnone : lookupId s.devices s.nextDeviceId = none :=
    (lookupId_eq_none_iff _ _).mpr
      (fun kv hkv => Nat.ne_of_lt (hbound kv hkv))
  have hcolnone : lookupId s.dataCollectors s.nextDeviceId = none :=
    (lookupId_eq_none_iff _ _).mpr
      (fun kv hkv => Nat.ne_of_lt (hcolbound kv hkv))
  refine ⟨hdevnone, hcolnone,
    lookupId_append_of_none _ _ _ hdevnone,
    lookupId_append_of_none _ _ _ hcolnone, ?_, ⟨?_, ?_, ?_⟩, ?_⟩
  · simp [Devices.add, Devices.size]
  · intro kv hkv
    simp only [Devices.add, List.mem_append, List.mem_singleton] at hkv
    rcases hkv with hkv | hkv
    · exact Nat.lt_succ_of_lt (hbound kv hkv)
    · subst hkv; exact Nat.lt_succ_self _
  · have hnotin : s.nextDeviceId ∉ s.devices.map Prod.fst := by
      intro hmem
      obtain ⟨kv0, hkv0, he⟩ := List.mem_map.mp hmem
      exact absurd (he ▸ hbound kv0 hkv0) (lt_irrefl _)
    simp [Devices.add, List.nodup_append, hnodup, hnotin]
  · simp [Devices.add, hkeys]
  · intro i hi
    exact ⟨lookupId_eraseId _ _, lookupId_eraseId _ _,
      length_eraseId_of_mem s.devices i hnodup hi⟩

/-- Instantiation of claim C7's theorem at a concrete well-formed two-device
collection. -/
theorem Devices.add_remove_behaviour_witness :
    sampleDevices.Wf ∧
    (lookupId sampleDevices.devices (sampleDevices.add sampleDevice).1 = none ∧
     lookupId sampleDevices.dataCollectors
       (sampleDevices.add sampleDevice).1 = none ∧
     lookupId (sampleDevices.add sampleDevice).2.devices
       (sampleDevices.add sampleDevice).1 = some sampleDevice ∧
     lookupId (sampleDevices.add sampleDevice).2.dataCollectors
       (sampleDevices.add sampleDevice).1 = some sampleDevice.dataCollector ∧
     (sampleDevices.add sampleDevice).2.size = sampleDevices.size + 1 ∧
     (sampleDevices.add sampleDevice).2.Wf ∧
     (∀ i, lookupId sampleDevices.devices i ≠ none →
       lookupId (sampleDevices.remove i).devices i = none ∧
       lookupId (sampleDevices.remove i).dataCollectors i = none ∧
       (sampleDevices.remove i).size + 1 = sampleDevices.size)) :=
  ⟨⟨by decide, by decide, by decide⟩,
   Devices.add_remove_behaviour sampleDevices sampleDevice
     ⟨by decide, by decide, by decide⟩⟩

/-- Claim C9: for an id absent from the collection, getDevice,
getDataCollector and the subscript operator all fail with NotFound; none of
them returns a device or collector for an unknown id. -/
theorem Devices.lookup_unknown_notFound (s : Devices) (i : Nat)
    (hdev : lookupId s.devices i = none)
    (hcol : lookupId s.dataCollectors i = none) :
    s.getDevice i = Except.error DevicesError.NotFound ∧
    s.getDataCollector i = Except.error DevicesError.NotFound ∧
    s.opIndex i = Except.error DevicesError.NotFound := by
  refine ⟨?_, ?_, ?_⟩ <;>
    simp [Devices.getDevice, Devices.getDataCollector, Devices.opIndex,
      hdev, hcol]

/-- Instantiation of claim C9's theorem at an id unknown to a concrete
collection. -/
theorem Devices.lookup_unknown_notFound_witness :
    lookupId sampleDevices.devices 7 = none ∧
    lookupId sampleDevices.dataCollectors 7 = none ∧
    (sampleDevices.getDevice 7 = Except.error DevicesError.NotFound ∧
     sampleDevices.getDataCollector 7 = Except.error DevicesError.NotFound ∧
     sampleDevices.opIndex 7 = Except.error DevicesError.NotFound) :=
  ⟨rfl, rfl, Devices.lookup_unknown_notFound sampleDevices 7 rfl rfl⟩

/-- Claim C10: clear removes every device from the collection: afterwards
size is zero and every id is absent from both the device mapping and the
data-collector mapping, keeping the two mappings in lockstep. -/
theorem Devices.clear_behaviour (s : Devices) (i : Nat) :
    s.clear.size = 0 ∧
    lookupId s.clear.devices i = none ∧
    lookupId s.clear.dataCollectors i = none :=
  ⟨rfl, rfl, rfl⟩

end Stimwalker
